import Mathlib

/-!
Verification development for the ThemeDeck backend (`src/main.py`).

The definitions below are a shallow embedding of the parts of the source
that the checked properties talk about: the yt-dlp tool locator
(`_resolve_yt_dlp_invocation`), the downloaded-binary validator
(`_is_valid_yt_dlp_binary`), the localconfig section scanner
(`_extract_app_ids_from_localconfig`), the search output parser
(`search_youtube`), the URL normalizer (`_normalize_youtube_url`), the
failure-summary aggregation of `update_yt_dlp`, the environment
sanitisation of `_run_command`, and the early-rejection paths of
`get_youtube_preview_stream` / `download_youtube_audio`.

Python strings are modelled as `List Char`, byte strings as `List Nat`.
Whitespace handling (`str.strip`, `str.split()`) is modelled via
`Char.isWhitespace`, i.e. the ASCII subset of Python's whitespace set.
-/

namespace ThemeDeck

/-- Characters of a string literal, used to write `List Char` values readably. -/
def str (s : String) : List Char := s.data

/-- Containment of a contiguous subsequence, modelling the Python `in`
operator on `str` / `bytes`. -/
def containsSeq {α : Type} [DecidableEq α] (pat : List α) : List α → Bool
  | [] => pat.isEmpty
  | a :: rest => pat.isPrefixOf (a :: rest) || containsSeq pat rest

/-- Python `str.strip()` (ASCII whitespace model): drop leading and trailing
whitespace characters. -/
def stripChars (l : List Char) : List Char :=
  ((l.dropWhile Char.isWhitespace).reverse.dropWhile Char.isWhitespace).reverse

/-- Python `str.lower()` restricted to ASCII letters. -/
def lowerChars (l : List Char) : List Char := l.map Char.toLower

/-- Python `str.split(sep)` for a one-character separator: keeps empty pieces. -/
def splitOnChar (sep : Char) : List Char → List (List Char)
  | [] => [[]]
  | c :: rest =>
    let r := splitOnChar sep rest
    if c = sep then [] :: r
    else
      match r with
      | [] => [[c]]
      | h :: t => (c :: h) :: t

/-- Pieces obtained by splitting at every whitespace character (empty pieces
kept); helper for `wordsOf`. -/
def splitOnWs : List Char → List (List Char)
  | [] => [[]]
  | c :: rest =>
    let r := splitOnWs rest
    if c.isWhitespace then [] :: r
    else
      match r with
      | [] => [[c]]
      | h :: t => (c :: h) :: t

/-- Python `str.split()` with no argument: maximal runs of non-whitespace. -/
def wordsOf (l : List Char) : List (List Char) :=
  (splitOnWs l).filter (fun w => ¬w.isEmpty)

/-- `" ".join(message.split())`: collapse all whitespace runs to single
spaces and strip the ends. -/
def collapseWs (l : List Char) : List Char :=
  List.intercalate [' '] (wordsOf l)

/-- Value of an ASCII digit string, modelling `int` on a `\d+` match. -/
def digitsToNat (ds : List Char) : Nat :=
  ds.foldl (fun acc c => acc * 10 + (c.toNat - 48)) 0

/-! ## Tool locator (`_resolve_yt_dlp_invocation`, lines 791-826) -/

/-- The invocation descriptor returned by the locator: command line, optional
environment overrides, provenance tag (the `source` field) and resolved path. -/
structure YtDlpInvocation where
  command : List String
  env : Option (List (String × String))
  source : String
  path : String
deriving DecidableEq

/-- The filesystem observations the locator makes, one per probe:
whether `<settings>/ytvenv/bin/yt-dlp` exists and is executable, the result
of `shutil.which("yt-dlp")`, whether `~/.local/bin/yt-dlp` exists and is
executable, and whether `<settings>/bin/yt-dlp` exists and is executable. -/
structure FsState where
  venvYtDlpOk : Bool
  systemYtDlp : Option String
  userYtDlpOk : Bool
  localYtDlpOk : Bool
deriving DecidableEq

/-- Path of the private-venv binary under the settings directory. -/
def ytVenvYtDlpPath (settingsDir : String) : String :=
  settingsDir ++ "/ytvenv/bin/yt-dlp"

/-- Path of the fixed per-user local-install binary. -/
def userYtDlpPath (home : String) : String :=
  home ++ "/.local/bin/yt-dlp"

/-- Path of the previously-downloaded fallback binary. -/
def localYtDlpPath (settingsDir : String) : String :=
  settingsDir ++ "/bin/yt-dlp"

/-- `_resolve_yt_dlp_invocation`: probe the four locations in order and stop
at the first hit; `none` when every probe misses. -/
def resolveYtDlpInvocation (settingsDir home : String) (fs : FsState) :
    Option YtDlpInvocation :=
  if fs.venvYtDlpOk then
    some ⟨[ytVenvYtDlpPath settingsDir], none, "venv", ytVenvYtDlpPath settingsDir⟩
  else
    match fs.systemYtDlp with
    | some p => some ⟨[p], none, "system", p⟩
    | none =>
      if fs.userYtDlpOk then
        some ⟨[userYtDlpPath home], none, "system", userYtDlpPath home⟩
      else if fs.localYtDlpOk then
        some ⟨[localYtDlpPath settingsDir], none, "local", localYtDlpPath settingsDir⟩
      else
        none

/-! ## Binary validator (`_is_valid_yt_dlp_binary`, lines 1046-1064) -/

/-- `bytes.lower()` on a single byte: ASCII uppercase letters map down. -/
def lowerByte (b : Nat) : Nat := if 65 ≤ b ∧ b ≤ 90 then b + 32 else b

/-- Byte sequence of `b"<!doctype html"`. -/
def doctypeMarker : List Nat := [60, 33, 100, 111, 99, 116, 121, 112, 101, 32, 104, 116, 109, 108]

/-- Byte sequence of `b"<html"`. -/
def htmlMarker : List Nat := [60, 104, 116, 109, 108]

/-- Byte sequence of `b"\x7fELF"`. -/
def elfMagic : List Nat := [127, 69, 76, 70]

/-- Byte sequence of `b"#!"`. -/
def shebangMagic : List Nat := [35, 33]

/-- Byte sequence of `b"MZ"`. -/
def mzMagic : List Nat := [77, 90]

/-- `_is_valid_yt_dlp_binary` applied to the file's contents (the surrounding
`read_bytes` I/O and its `OSError` branch are outside the model): reject short
files and HTML bodies, accept recognized signatures or anything over 1 MiB. -/
def isValidYtDlpBinary (content : List Nat) : Bool :=
  if content.length < 64 then false
  else
    let head := (content.take 4096).map lowerByte
    if containsSeq doctypeMarker head || containsSeq htmlMarker head then false
    else if elfMagic.isPrefixOf content then true
    else if shebangMagic.isPrefixOf content then true
    else if mzMagic.isPrefixOf content then true
    else decide (content.length > 1024 * 1024)

/-! ## Config scanner (`_extract_app_ids_from_localconfig`, lines 637-688) -/

/-- Model of `re.fullmatch(r'"([^\x22]+)"', line)`: the whole line is one
quoted token with a non-empty, quote-free body; returns the body. -/
def sectionName (l : List Char) : Option (List Char) :=
  match l with
  | '"' :: rest =>
    let s := rest.takeWhile (fun c => c ≠ '"')
    if s.length + 1 = rest.length ∧ ¬s.isEmpty then some s else none
  | _ => none

/-- Model of `re.match(r'^"(\d\x7b1,7\x7d)"', line)` followed by `int(...)`:
the line starts with a quote, then 1 to 7 digits, then a closing quote.
The maximal digit run after the opening quote is the only candidate capture,
because shorter prefixes of the run are followed by a digit, not a quote. -/
def appIdOfLine (l : List Char) : Option Nat :=
  match l with
  | '"' :: rest =>
    let ds := rest.takeWhile Char.isDigit
    if 1 ≤ ds.length ∧ ds.length ≤ 7 ∧ (rest.drop ds.length).head? = some '"' then
      some (digitsToNat ds)
    else none
  | _ => none

/-- The scanner's state: current section (if inside the target section),
pending section name (a just-seen section header), brace nesting depth, and
the identifiers collected so far. -/
structure ScanState where
  currentSection : Option (List Char)
  pendingSection : Option (List Char)
  depth : Nat
  appIds : Finset Nat

/-- One line of `_extract_app_ids_from_localconfig`'s loop. -/
def scanStep (s : ScanState) (rawLine : List Char) : ScanState :=
  let line := stripChars rawLine
  if line.isEmpty then s
  else
    match s.currentSection with
    | none =>
      if (sectionName line).elim false (fun n => lowerChars n = str "apps") then
        { s with pendingSection := (sectionName line).map lowerChars }
      else if s.pendingSection.isSome ∧ line = ['\x7b'] then
        { s with currentSection := s.pendingSection, pendingSection := none, depth := 1 }
      else
        { s with pendingSection := none }
    | some _ =>
      if line = ['\x7b'] then { s with depth := s.depth + 1 }
      else if line = ['\x7d'] then
        if s.depth - 1 = 0 then { s with currentSection := none, depth := 0 }
        else { s with depth := s.depth - 1 }
      else if s.depth = 1 then
        match appIdOfLine line with
        | some n => if 0 < n then { s with appIds := insert n s.appIds } else s
        | none => s
      else s

/-- Run the scanner from a given state over a list of raw lines. -/
def scanFrom (s : ScanState) (lines : List (List Char)) : ScanState :=
  lines.foldl scanStep s

/-- The scanner's initial state. -/
def scanInit : ScanState := ⟨none, none, 0, ∅⟩

/-- `_extract_app_ids_from_localconfig` on the file's lines. -/
def extractAppIds (lines : List (List Char)) : Finset Nat :=
  (scanFrom scanInit lines).appIds

/-! ## Search output parsing (`search_youtube`, lines 439-497) -/

/-- One parsed search hit. -/
structure SearchHit where
  id : List Char
  title : List Char
  uploader : List Char
  duration : Option Int
  webpageUrl : List Char
deriving DecidableEq

/-- Model of `int(float(raw))` on plain decimal literals: optional sign,
integer digits, optional fractional part; truncation toward zero. Exotic
`float()` inputs (exponents, underscores, `inf`, `nan`) are outside the
modelled domain; yt-dlp prints integer durations or `NA`. -/
def parseDuration (l : List Char) : Option Int :=
  let signed : Int × List Char :=
    match l with
    | '-' :: r => (-1, r)
    | '+' :: r => (1, r)
    | r => (1, r)
  let intPart := signed.2.takeWhile Char.isDigit
  let rest := signed.2.drop intPart.length
  let wellFormed : Bool :=
    match rest with
    | [] => ¬intPart.isEmpty
    | '.' :: fr => (¬intPart.isEmpty || ¬fr.isEmpty) && fr.all Char.isDigit
    | _ => false
  if wellFormed then some (signed.1 * (digitsToNat intPart : Int)) else none

/-- The stripped `i`-th tab-separated field of a stripped output line, or `[]`
when the line has at most `i` fields (`parts[i].strip() if len(parts) > i
else ""`). -/
def lineField (rawLine : List Char) (i : Nat) : List Char :=
  let parts := splitOnChar '\t' (stripChars rawLine)
  if i < parts.length then stripChars (parts.getD i []) else []

/-- The duration value the parser attaches to a line: `None` when the field
is empty or unparseable. -/
def durationOfLine (rawLine : List Char) : Option Int :=
  let raw := lineField rawLine 3
  if raw.isEmpty then none else parseDuration raw

/-- The canonical watch URL synthesized from an id. -/
def watchUrlOf (videoId : List Char) : List Char :=
  str "https://www.youtube.com/watch?v=" ++ videoId

/-- Whether a url field is an absolute http(s) URL
(`url_raw.startswith("http://") or url_raw.startswith("https://")`). -/
def isAbsoluteHttpUrl (urlRaw : List Char) : Bool :=
  (str "http://").isPrefixOf urlRaw || (str "https://").isPrefixOf urlRaw

/-- The body of `search_youtube`'s per-line loop: `none` when the line is
skipped (blank line, fewer than two tab-separated fields, empty id, or
duration above 900 seconds), otherwise the constructed hit. -/
def processSearchLine (rawLine : List Char) : Option SearchHit :=
  let line := stripChars rawLine
  if line.isEmpty then none
  else
    let parts := splitOnChar '\t' line
    if parts.length < 2 then none
    else
      let videoId := stripChars (parts.getD 0 [])
      if videoId.isEmpty then none
      else
        let title0 := stripChars (parts.getD 1 [])
        let title := if title0.isEmpty then videoId else title0
        let uploader := lineField rawLine 2
        let duration := durationOfLine rawLine
        let urlRaw := lineField rawLine 4
        let webpageUrl := if isAbsoluteHttpUrl urlRaw then urlRaw else watchUrlOf videoId
        match duration with
        | some d =>
          if d > 15 * 60 then none
          else some ⟨videoId, title, uploader, some d, webpageUrl⟩
        | none => some ⟨videoId, title, uploader, none, webpageUrl⟩

/-- The results list built from the tool's stdout lines. -/
def searchResults (stdoutLines : List (List Char)) : List SearchHit :=
  stdoutLines.filterMap processSearchLine

/-! ## Search limit clamping (`search_youtube`, lines 446-456) -/

/-- `safe_limit = max(1, min(int(limit), 25))`. -/
def safeLimit (limit : Int) : Int := max 1 (min limit 25)

/-- The argv built by `search_youtube` (lines 447-456). -/
def searchCommand (toolCommand : List String) (limit : Int) (query : List Char) :
    List String :=
  toolCommand ++
    ["--no-warnings", "--no-check-certificate", "--skip-download", "--flat-playlist",
     "--print", "%(id)s\t%(title)s\t%(uploader)s\t%(duration)s\t%(url)s",
     "ytsearch" ++ toString (safeLimit limit) ++ ":" ++ String.mk query]

/-! ## URL normalization (`_normalize_youtube_url`, lines 891-909) -/

/-- The errors `_normalize_youtube_url` raises: `ValueError("YouTube URL is
required")` for blank input, `ValueError("Only YouTube links are supported")`
for a disallowed host. -/
inductive UrlError where
  | emptyUrl : UrlError
  | unsupportedHost : UrlError
deriving DecidableEq

/-- The scheme-less prefixes that trigger `https://` prepending (line 897). -/
def schemelessHostStarts : List (List Char) :=
  [str "youtube.com", str "www.youtube.com", str "m.youtube.com",
   str "music.youtube.com", str "youtu.be"]

/-- The host allow-set checked after parsing (line 907). -/
def allowedHosts : List (List Char) :=
  [str "youtube.com", str "m.youtube.com", str "music.youtube.com", str "youtu.be"]

/-- Split a list at the first occurrence of a pattern, returning the parts
before and after it. -/
def splitFirstSeq {α : Type} [DecidableEq α] (pat : List α) :
    List α → Option (List α × List α)
  | [] => if pat.isEmpty then some ([], []) else none
  | a :: rest =>
    if pat.isPrefixOf (a :: rest) then some ([], (a :: rest).drop pat.length)
    else
      match splitFirstSeq pat rest with
      | some (before, after) => some (a :: before, after)
      | none => none

/-- Valid URL scheme per `urllib.parse`: a letter followed by letters, digits,
`+`, `-` or `.`. -/
def isValidScheme (s : List Char) : Bool :=
  match s with
  | [] => false
  | c :: rest => c.isAlpha && rest.all (fun ch => ch.isAlphanum || ch = '+' || ch = '-' || ch = '.')

/-- `urllib.parse.urlparse(candidate).netloc` for the shapes reachable here:
the text between a valid `scheme://` and the next `/`, `?` or `#`; empty when
there is no valid `scheme://` part. -/
def netlocOf (candidate : List Char) : List Char :=
  match splitFirstSeq (str "://") candidate with
  | none => []
  | some (scheme, rest) =>
    if isValidScheme scheme then
      rest.takeWhile (fun ch => ch ≠ '/' ∧ ch ≠ '?' ∧ ch ≠ '#')
    else []

/-- Strip one leading `www.` from a lowercased host (lines 905-906). -/
def stripWww (host : List Char) : List Char :=
  if (str "www.").isPrefixOf host then host.drop 4 else host

/-- The candidate-building stage of `_normalize_youtube_url` (lines 896-901):
prepend a scheme for a known scheme-less host prefix, or promote a bare token
to a watch URL. -/
def promoteCandidate (candidate : List Char) : List Char :=
  if ¬containsSeq (str "://") candidate ∧
      schemelessHostStarts.any (fun p => p.isPrefixOf candidate) then
    str "https://" ++ candidate
  else if ¬containsSeq (str "://") candidate ∧ ¬candidate.contains '/' ∧
      ¬candidate.contains ' ' then
    watchUrlOf candidate
  else candidate

/-- `_normalize_youtube_url`: strip, reject blank input, build the candidate,
then reject any candidate whose host (lowercased, `www.`-stripped) is not in
the allow-set. -/
def normalizeYoutubeUrl (value : List Char) : Except UrlError (List Char) :=
  let c0 := stripChars value
  if c0.isEmpty then .error .emptyUrl
  else
    let candidate := promoteCandidate c0
    let host := stripWww (lowerChars (netlocOf candidate))
    if host ∈ allowedHosts then .ok candidate else .error .unsupportedHost

/-! ## Failure-summary aggregation (`update_yt_dlp`, lines 384-437, and
`_trim_message`, lines 1066-1070) -/

/-- `_trim_message`: collapse whitespace, then cut to `limit` characters with
a `...` suffix when over the limit. -/
def trimMessage (message : List Char) (limit : Nat) : List Char :=
  let cleaned := collapseWs message
  if cleaned.length ≤ limit then cleaned else cleaned.take (limit - 3) ++ str "..."

/-- The aggregated summary `update_yt_dlp` builds when every strategy failed
(lines 422-426): the trimmed download error, then the venv error, then the
pip error, re-trimmed to 220 characters after each append. -/
def updateFailureSummary (downloadError : List Char)
    (venvError pipError : Option (List Char)) : List Char :=
  let s0 := trimMessage downloadError 140
  let s1 :=
    match venvError with
    | some v => trimMessage (s0 ++ str "; venv: " ++ v) 220
    | none => s0
  match pipError with
  | some p => trimMessage (s1 ++ str "; pip: " ++ p) 220
  | none => s1

/-- The message of the `RuntimeError` raised on line 427. -/
def updateFailureMessage (downloadError : List Char)
    (venvError pipError : Option (List Char)) : List Char :=
  str "Failed to update yt-dlp: " ++ updateFailureSummary downloadError venvError pipError

/-- The per-mirror error summary `_download_yt_dlp_binary` raises with
(lines 1043-1044): semicolon-joined attempt errors, trimmed to 280. -/
def downloadErrorSummary (errors : List (List Char)) : List Char :=
  if errors.isEmpty then str "unknown download error"
  else trimMessage (List.intercalate (str "; ") errors) 280

/-! ## Subprocess environment sanitisation (`_run_command`, lines 846-874) -/

/-- An environment, modelled as a partial map from variable names to values. -/
def Env : Type := String → Option String

/-- `dict.pop(key, None)`: remove one variable. -/
def envPop (e : Env) (key : String) : Env :=
  fun k => if k = key then none else e k

/-- `dict.update(overrides)`: overriding entries win. -/
def envUpdate (e : Env) (overrides : Env) : Env :=
  fun k =>
    match overrides k with
    | some v => some v
    | none => e k

/-- The environment `_run_command` passes to `subprocess.run`: a copy of the
host environment with the loader-poisoned variables removed, then the
caller-supplied overrides applied on top (`env` may be absent). -/
def buildRunEnv (hostEnv : Env) (overrides : Option Env) : Env :=
  let stripped :=
    envPop (envPop (envPop hostEnv "LD_LIBRARY_PATH") "PYTHONHOME") "PYTHONPATH"
  match overrides with
  | some o => envUpdate stripped o
  | none => stripped

/-! ## Media operations (`get_youtube_preview_stream`, lines 503-531, and
`download_youtube_audio`, lines 533-584) -/

/-- Result of one subprocess execution; `stdout`/`stderr` are the captured
texts. -/
structure RunOutcome where
  returncode : Int
  stdout : List Char
  stderr : List Char

/-- The host-facing side effects a media operation can perform, in order. -/
inductive HostEffect where
  | runCommand : List String → HostEffect
  | makeDirs : String → HostEffect
  | saveTrack : Int → HostEffect
deriving DecidableEq

/-- Last line of a text, for `text.splitlines()[-1]` on non-empty text. -/
def lastLineOf (text : List Char) : List Char :=
  ((splitOnChar '\n' text).getLast?).getD []

/-- `_command_error` (lines 876-889): last non-empty-stream lines joined and
trimmed, or the fallback. -/
def commandErrorMsg (stderr stdout fallback : List Char) : List Char :=
  let e := stripChars stderr
  let o := stripChars stdout
  if ¬e.isEmpty ∧ ¬o.isEmpty then
    trimMessage (lastLineOf e ++ str " | " ++ lastLineOf o) 220
  else if ¬e.isEmpty then trimMessage (lastLineOf e) 220
  else if ¬o.isEmpty then trimMessage (lastLineOf o) 220
  else fallback

/-- The `RuntimeError` message of `_require_yt_dlp_invocation` (lines 828-834). -/
def toolUnavailableMsg : List Char :=
  str "yt-dlp is not available. Use the ThemeDeck install/update button."

/-- Message for each `UrlError` (the `ValueError` texts of
`_normalize_youtube_url`). -/
def urlErrorMsg : UrlError → List Char
  | .emptyUrl => str "YouTube URL is required"
  | .unsupportedHost => str "Only YouTube links are supported"

/-- `get_youtube_preview_stream`, with the subprocess modelled by `run`:
returns the outcome together with the ordered list of host-facing effects. -/
def previewStream (inv : Option YtDlpInvocation) (run : List String → RunOutcome)
    (videoUrl : List Char) : Except (List Char) (List Char) × List HostEffect :=
  match inv with
  | none => (.error toolUnavailableMsg, [])
  | some y =>
    match normalizeYoutubeUrl videoUrl with
    | .error e => (.error (urlErrorMsg e), [])
    | .ok u =>
      let command := y.command ++
        ["--no-warnings", "--no-check-certificate", "--no-playlist", "--get-url",
         "-f", "ba[ext=m4a]/bestaudio/best", String.mk u]
      let r := run command
      if r.returncode ≠ 0 then
        (.error (commandErrorMsg r.stderr r.stdout (str "Failed to resolve preview stream")),
         [.runCommand command])
      else
        match ((splitOnChar '\n' r.stdout).map stripChars).find?
            (fun l => !l.isEmpty && isAbsoluteHttpUrl l) with
        | some s => (.ok s, [.runCommand command])
        | none =>
          (.error (str "yt-dlp did not return a playable preview stream URL"),
           [.runCommand command])

/-- `download_youtube_audio`, with the subprocess modelled by `run` and the
filesystem lookup of `_extract_downloaded_path` / `_find_latest_audio_file`
abstracted as the oracle `resolveDownloaded` over the printed output lines. -/
def downloadAudio (inv : Option YtDlpInvocation) (run : List String → RunOutcome)
    (resolveDownloaded : List (List Char) → Option (List Char))
    (downloadsDir : String) (appId : Int) (videoUrl : List Char) :
    Except (List Char) (List Char) × List HostEffect :=
  if appId ≤ 0 then (.error (str "Invalid app id"), [])
  else
    match inv with
    | none => (.error toolUnavailableMsg, [])
    | some y =>
      match normalizeYoutubeUrl videoUrl with
      | .error e => (.error (urlErrorMsg e), [])
      | .ok u =>
        let dir := downloadsDir ++ "/" ++ toString appId
        let command := y.command ++
          ["--no-warnings", "--no-check-certificate", "--no-playlist",
           "--extract-audio", "--audio-format", "mp3", "--audio-quality", "0",
           "--restrict-filenames", "--force-overwrites", "--paths", dir,
           "-o", "%(title).150B [%(id)s].%(ext)s", "--print", "after_move:filepath",
           String.mk u]
        let r := run command
        if r.returncode ≠ 0 then
          (.error (commandErrorMsg r.stderr r.stdout (str "YouTube download failed")),
           [.makeDirs dir, .runCommand command])
        else
          let outputLines :=
            ((splitOnChar '\n' r.stdout).map stripChars).filter (fun l => !l.isEmpty)
          match resolveDownloaded outputLines with
          | none =>
            (.error (str "Download completed but no audio file was found"),
             [.makeDirs dir, .runCommand command])
          | some p => (.ok p, [.makeDirs dir, .runCommand command, .saveTrack appId])

/-! ## Helper lemmas -/

/-- A pattern that is a prefix of a list is contained in it. -/
lemma containsSeq_of_isPrefixOf {α : Type} [DecidableEq α] {pat l : List α}
    (h : pat.isPrefixOf l = true) : containsSeq pat l = true := by
  cases l with
  | nil =>
    cases pat with
    | nil => rfl
    | cons a t => simp [List.isPrefixOf] at h
  | cons a t => simp [containsSeq, h]

/-- A pattern starting with an element different from `a` never occurs in
`List.replicate n a`. -/
lemma containsSeq_cons_replicate {α : Type} [DecidableEq α] (b : α) (p : List α)
    (a : α) (h : b ≠ a) : ∀ n : Nat, containsSeq (b :: p) (List.replicate n a) = false := by
  intro n
  induction n with
  | zero => simp [containsSeq]
  | succ n ih =>
    simp only [List.replicate_succ, containsSeq, ih, Bool.or_false]
    simp [List.isPrefixOf, h]

/-- `_trim_message` never returns more than `limit` characters (for the
limits used, all at least 3). -/
lemma trimMessage_length (m : List Char) (limit : Nat) (h3 : 3 ≤ limit) :
    (trimMessage m limit).length ≤ limit := by
  unfold trimMessage
  by_cases h : (collapseWs m).length ≤ limit
  · simp [h]
  · simp only [h, if_false]
    simp only [List.length_append, List.length_take, str, List.length_cons,
      List.length_nil]
    omega

/-! ## C7: subprocess environment sanitisation -/

/-- C7: for every host environment and caller override set, the environment
handed to the subprocess never takes the value of `LD_LIBRARY_PATH`,
`PYTHONHOME` or `PYTHONPATH` from the host process (for those keys the result
is independent of the host environment, and absent when no override supplies
them), while caller-supplied overrides are applied on top of the stripped
environment and may reintroduce such a variable; all other keys fall through
to the host environment. -/
theorem c7_env_sanitisation :
    (∀ (hostEnv hostEnv2 : Env) (overrides : Option Env) (k : String),
      (k = "LD_LIBRARY_PATH" ∨ k = "PYTHONHOME" ∨ k = "PYTHONPATH") →
      buildRunEnv hostEnv overrides k = buildRunEnv hostEnv2 overrides k)
    ∧ (∀ (hostEnv : Env) (k : String),
      (k = "LD_LIBRARY_PATH" ∨ k = "PYTHONHOME" ∨ k = "PYTHONPATH") →
      buildRunEnv hostEnv none k = none)
    ∧ (∀ (hostEnv : Env) (o : Env) (k : String) (v : String),
      o k = some v → buildRunEnv hostEnv (some o) k = some v)
    ∧ (∀ (hostEnv : Env) (o : Env) (k : String),
      o k = none → k ≠ "LD_LIBRARY_PATH" → k ≠ "PYTHONHOME" → k ≠ "PYTHONPATH" →
      buildRunEnv hostEnv (some o) k = hostEnv k) := by
  refine ⟨?_, ?_, ?_, ?_⟩
  · rintro hostEnv hostEnv2 overrides k (rfl | rfl | rfl) <;>
      cases overrides <;> simp [buildRunEnv, envPop, envUpdate]
  · rintro hostEnv k (rfl | rfl | rfl) <;> simp [buildRunEnv, envPop]
  · intro hostEnv o k v h
    simp [buildRunEnv, envUpdate, h]
  · intro hostEnv o k h hk1 hk2 hk3
    simp [buildRunEnv, envUpdate, envPop, h, hk1, hk2, hk3]

/-- C7 witness: a poisoned host `LD_LIBRARY_PATH` never reaches the
subprocess when no override supplies it, and an override value does. -/
theorem c7_env_sanitisation_witness :
    buildRunEnv (fun _ => some "poisoned") none "LD_LIBRARY_PATH" = none
    ∧ buildRunEnv (fun _ => some "poisoned")
        (some (fun k => if k = "LD_LIBRARY_PATH" then some "mine" else none))
        "LD_LIBRARY_PATH" = some "mine" :=
  ⟨c7_env_sanitisation.2.1 (fun _ => some "poisoned") "LD_LIBRARY_PATH" (Or.inl rfl),
   c7_env_sanitisation.2.2.1 (fun _ => some "poisoned")
     (fun k => if k = "LD_LIBRARY_PATH" then some "mine" else none)
     "LD_LIBRARY_PATH" "mine" (by simp)⟩

/-! ## C9: search limit clamping -/

/-- C9: the search limit is silently clamped into `[1, 25]`: the clamped
value always lies in that range, a limit below 1 produces exactly the command
line of limit 1, and a limit above 25 exactly that of limit 25; the clamp is
a total function, so no out-of-range limit is rejected. -/
theorem c9_limit_clamping (limit : Int) :
    (1 ≤ safeLimit limit ∧ safeLimit limit ≤ 25)
    ∧ (limit < 1 → ∀ (toolCommand : List String) (query : List Char),
        searchCommand toolCommand limit query = searchCommand toolCommand 1 query)
    ∧ (25 < limit → ∀ (toolCommand : List String) (query : List Char),
        searchCommand toolCommand limit query = searchCommand toolCommand 25 query) := by
  refine ⟨⟨?_, ?_⟩, ?_, ?_⟩
  · exact le_max_left 1 _
  · simp only [safeLimit, max_le_iff]
    exact ⟨by norm_num, min_le_right limit 25⟩
  · intro h toolCommand query
    have : safeLimit limit = safeLimit 1 := by
      simp only [safeLimit, min_def, max_def]
      split_ifs <;> omega
    simp [searchCommand, this]
  · intro h toolCommand query
    have : safeLimit limit = safeLimit 25 := by
      simp only [safeLimit, min_def, max_def]
      split_ifs <;> omega
    simp [searchCommand, this]

/-- C9 witness: limit 0 behaves as limit 1 and limit 26 as limit 25, and the
clamped values are in range. -/
theorem c9_limit_clamping_witness :
    (1 ≤ safeLimit 0 ∧ safeLimit 0 ≤ 25)
    ∧ searchCommand ["yt-dlp"] 0 (str "q") = searchCommand ["yt-dlp"] 1 (str "q")
    ∧ searchCommand ["yt-dlp"] 26 (str "q") = searchCommand ["yt-dlp"] 25 (str "q") :=
  ⟨(c9_limit_clamping 0).1,
   (c9_limit_clamping 0).2.1 (by norm_num) ["yt-dlp"] (str "q"),
   (c9_limit_clamping 26).2.2 (by norm_num) ["yt-dlp"] (str "q")⟩

/-! ## C1: tool locator -/

/-- C1 counterexample: the claim's provenance labels are wrong for the last
two probes. When only the per-user local-install probe hits, the descriptor's
provenance is `"system"`, not `"user"`; when only the downloaded-fallback
probe hits, it is `"local"`, not `"local-binary"`. -/
theorem c1_locator_provenance_counterexample :
    ((resolveYtDlpInvocation "S" "H" ⟨false, none, true, true⟩).map
        YtDlpInvocation.source = some "system" ∧ "system" ≠ "user")
    ∧ ((resolveYtDlpInvocation "S" "H" ⟨false, none, false, true⟩).map
        YtDlpInvocation.source = some "local" ∧ "local" ≠ "local-binary") :=
  ⟨⟨rfl, by decide⟩, ⟨rfl, by decide⟩⟩

/-- C1 (amended): the locator probes exactly the four locations in priority
order — private venv binary, system search path, per-user local-install
directory, downloaded fallback binary — stopping at the first hit, and
returns `none` iff all four probes miss; the provenance recorded is `"venv"`,
`"system"`, `"system"` and `"local"` respectively (the user-directory probe
reports `"system"`, and the fallback binary `"local"`, not `"user"` /
`"local-binary"`). -/
theorem c1_locator_priority (settingsDir home : String) (fs : FsState) :
    (resolveYtDlpInvocation settingsDir home fs = none ↔
      fs.venvYtDlpOk = false ∧ fs.systemYtDlp = none ∧
        fs.userYtDlpOk = false ∧ fs.localYtDlpOk = false)
    ∧ (fs.venvYtDlpOk = true →
        resolveYtDlpInvocation settingsDir home fs =
          some ⟨[ytVenvYtDlpPath settingsDir], none, "venv", ytVenvYtDlpPath settingsDir⟩)
    ∧ (∀ p, fs.venvYtDlpOk = false → fs.systemYtDlp = some p →
        resolveYtDlpInvocation settingsDir home fs = some ⟨[p], none, "system", p⟩)
    ∧ (fs.venvYtDlpOk = false → fs.systemYtDlp = none → fs.userYtDlpOk = true →
        resolveYtDlpInvocation settingsDir home fs =
          some ⟨[userYtDlpPath home], none, "system", userYtDlpPath home⟩)
    ∧ (fs.venvYtDlpOk = false → fs.systemYtDlp = none → fs.userYtDlpOk = false →
        fs.localYtDlpOk = true →
        resolveYtDlpInvocation settingsDir home fs =
          some ⟨[localYtDlpPath settingsDir], none, "local", localYtDlpPath settingsDir⟩) := by
  obtain ⟨v, sys, u, l⟩ := fs
  cases v <;> cases sys <;> cases u <;> cases l <;>
    simp [resolveYtDlpInvocation]

/-- C1 witness: each probe resolved at a concrete filesystem state. -/
theorem c1_locator_priority_witness :
    resolveYtDlpInvocation "S" "H" ⟨true, none, false, false⟩ =
      some ⟨[ytVenvYtDlpPath "S"], none, "venv", ytVenvYtDlpPath "S"⟩
    ∧ resolveYtDlpInvocation "S" "H" ⟨false, some "/usr/bin/yt-dlp", false, false⟩ =
      some ⟨["/usr/bin/yt-dlp"], none, "system", "/usr/bin/yt-dlp"⟩
    ∧ resolveYtDlpInvocation "S" "H" ⟨false, none, false, false⟩ = none :=
  ⟨(c1_locator_priority "S" "H" ⟨true, none, false, false⟩).2.1 rfl,
   (c1_locator_priority "S" "H" ⟨false, some "/usr/bin/yt-dlp", false, false⟩).2.2.1
     "/usr/bin/yt-dlp" rfl rfl,
   (c1_locator_priority "S" "H" ⟨false, none, false, false⟩).1.mpr
     ⟨rfl, rfl, rfl, rfl⟩⟩

/-! ## C2: binary validation -/

/-- Byte sequence of `b"<!DOCTYPE html"` (the uppercase form from the spec's
test case). -/
def doctypeMarkerUpper : List Nat :=
  [60, 33, 68, 79, 67, 84, 89, 80, 69, 32, 104, 116, 109, 108]

/-- C2 counterexample: the size check is `len(content) < 64`, i.e. at-least-64,
not the claim's strictly-more-than-64. A 64-byte shebang file is accepted even
though its size does not exceed 64 bytes. -/
theorem c2_size_boundary_counterexample :
    isValidYtDlpBinary (shebangMagic ++ List.replicate 62 0) = true
    ∧ (shebangMagic ++ List.replicate 62 0).length = 64 := by
  constructor
  · decide
  · decide

/-- C2 (amended): the validator accepts a candidate iff its size is at least
64 bytes (not: exceeds 64), its first 4096 bytes (lowercased) contain no HTML
document marker, and it starts with an ELF, shebang or MZ signature or
exceeds 1 MiB. The spec's test cases hold: every 10-byte file is rejected,
every 2 MiB marker-free file is accepted, and every file starting with
`<!DOCTYPE html` is rejected regardless of size. -/
theorem c2_binary_validation :
    (∀ content : List Nat, isValidYtDlpBinary content = true ↔
      (64 ≤ content.length ∧
        containsSeq doctypeMarker ((content.take 4096).map lowerByte) = false ∧
        containsSeq htmlMarker ((content.take 4096).map lowerByte) = false ∧
        (elfMagic.isPrefixOf content = true ∨ shebangMagic.isPrefixOf content = true ∨
          mzMagic.isPrefixOf content = true ∨ 1024 * 1024 < content.length)))
    ∧ (∀ content : List Nat, content.length = 10 → isValidYtDlpBinary content = false)
    ∧ (∀ content : List Nat, content.length = 2 * 1024 * 1024 →
        containsSeq doctypeMarker ((content.take 4096).map lowerByte) = false →
        containsSeq htmlMarker ((content.take 4096).map lowerByte) = false →
        isValidYtDlpBinary content = true)
    ∧ (∀ content : List Nat, doctypeMarkerUpper.isPrefixOf content = true →
        isValidYtDlpBinary content = false) := by
  refine ⟨?_, ?_, ?_, ?_⟩
  · intro content
    unfold isValidYtDlpBinary
    by_cases h1 : content.length < 64
    · rw [if_pos h1]
      simp only [Bool.false_eq_true, false_iff]
      rintro ⟨ha, -⟩
      omega
    · rw [if_neg h1]
      by_cases h2 : (containsSeq doctypeMarker ((content.take 4096).map lowerByte) ||
          containsSeq htmlMarker ((content.take 4096).map lowerByte)) = true
      · rw [if_pos h2]
        simp only [Bool.or_eq_true] at h2
        simp only [Bool.false_eq_true, false_iff]
        rintro ⟨-, ha, hb, -⟩
        rcases h2 with h2 | h2
        · rw [ha] at h2; exact Bool.false_ne_true h2
        · rw [hb] at h2; exact Bool.false_ne_true h2
      · rw [if_neg h2]
        simp only [Bool.or_eq_true, not_or, Bool.not_eq_true] at h2
        by_cases h3 : elfMagic.isPrefixOf content = true
        · rw [if_pos h3]
          simp only [true_iff]
          exact ⟨by omega, h2.1, h2.2, Or.inl h3⟩
        · rw [if_neg h3]
          by_cases h4 : shebangMagic.isPrefixOf content = true
          · rw [if_pos h4]
            simp only [true_iff]
            exact ⟨by omega, h2.1, h2.2, Or.inr (Or.inl h4)⟩
          · rw [if_neg h4]
            by_cases h5 : mzMagic.isPrefixOf content = true
            · rw [if_pos h5]
              simp only [true_iff]
              exact ⟨by omega, h2.1, h2.2, Or.inr (Or.inr (Or.inl h5))⟩
            · rw [if_neg h5]
              simp only [decide_eq_true_eq]
              constructor
              · intro hlen
                exact ⟨by omega, h2.1, h2.2, Or.inr (Or.inr (Or.inr hlen))⟩
              · rintro ⟨-, -, -, h | h | h | h⟩
                · exact absurd h h3
                · exact absurd h h4
                · exact absurd h h5
                · exact h
  · intro content h
    unfold isValidYtDlpBinary
    simp [h]
  · intro content hlen h1 h2
    unfold isValidYtDlpBinary
    rw [if_neg (by omega)]
    rw [if_neg (by rw [h1, h2]; exact Bool.false_ne_true)]
    by_cases g3 : elfMagic.isPrefixOf content = true
    · rw [if_pos g3]
    · rw [if_neg g3]
      by_cases g4 : shebangMagic.isPrefixOf content = true
      · rw [if_pos g4]
      · rw [if_neg g4]
        by_cases g5 : mzMagic.isPrefixOf content = true
        · rw [if_pos g5]
        · rw [if_neg g5]
          simp only [decide_eq_true_eq]
          omega
  · intro content hpre
    rcases List.isPrefixOf_iff_prefix.mp hpre with ⟨t, ht⟩
    have h14 : content.take 4096 = doctypeMarkerUpper ++ t.take 4082 := by
      subst ht
      rw [List.take_append_eq_append_take]
      have hu : List.take 4096 doctypeMarkerUpper = doctypeMarkerUpper := rfl
      have hn : 4096 - doctypeMarkerUpper.length = 4082 := rfl
      rw [hu, hn]
    have hform : (content.take 4096).map lowerByte =
        doctypeMarker ++ (t.take 4082).map lowerByte := by
      rw [h14, List.map_append]
      rfl
    have hmark : containsSeq doctypeMarker ((content.take 4096).map lowerByte) = true := by
      rw [hform]
      apply containsSeq_of_isPrefixOf
      rw [List.isPrefixOf_iff_prefix]
      exact ⟨_, rfl⟩
    unfold isValidYtDlpBinary
    by_cases hl : content.length < 64
    · rw [if_pos hl]
    · rw [if_neg hl, if_pos (by simp only [hmark, Bool.true_or])]

/-- C2 witness: the three test cases at concrete files — ten zero bytes, a
2 MiB zero-filled file, and a 64-byte file starting with `<!DOCTYPE html`. -/
theorem c2_binary_validation_witness :
    isValidYtDlpBinary (List.replicate 10 0) = false
    ∧ isValidYtDlpBinary (List.replicate (2 * 1024 * 1024) 0) = true
    ∧ isValidYtDlpBinary (doctypeMarkerUpper ++ List.replicate 50 0) = false :=
  ⟨c2_binary_validation.2.1 _ (List.length_replicate 10 0),
   c2_binary_validation.2.2.1 _ (List.length_replicate (2 * 1024 * 1024) 0)
     (by
       rw [List.take_replicate, List.map_replicate]
       have h0 : lowerByte 0 = 0 := rfl
       rw [h0]
       exact containsSeq_cons_replicate 60 _ 0 (by norm_num) _)
     (by
       rw [List.take_replicate, List.map_replicate]
       have h0 : lowerByte 0 = 0 := rfl
       rw [h0]
       exact containsSeq_cons_replicate 60 _ 0 (by norm_num) _),
   c2_binary_validation.2.2.2 _ (by decide)⟩

/-! ## C5: URL normalization -/

/-- C5: a bare video id is promoted to the canonical watch URL; a scheme-less
input starting with a known platform host gets `https://` prepended (and is
then accepted or rejected on its parsed host); every input whose candidate's
host — lowercased and stripped of a leading `www.` — is outside the allow-set
fails with `UnsupportedHost`; every accepted URL has its host in the
allow-set; and `https://vimeo.com/123` is rejected. -/
theorem c5_url_normalization :
    normalizeYoutubeUrl (str "dQw4w9WgXcQ") =
      .ok (str "https://www.youtube.com/watch?v=dQw4w9WgXcQ")
    ∧ (∀ value : List Char,
        containsSeq (str "://") (stripChars value) = false →
        (schemelessHostStarts.any (fun p => p.isPrefixOf (stripChars value))) = true →
        normalizeYoutubeUrl value = .ok (str "https://" ++ stripChars value) ∨
          normalizeYoutubeUrl value = .error .unsupportedHost)
    ∧ (∀ value : List Char, (stripChars value).isEmpty = false →
        stripWww (lowerChars (netlocOf (promoteCandidate (stripChars value)))) ∉ allowedHosts →
        normalizeYoutubeUrl value = .error .unsupportedHost)
    ∧ (∀ (value result : List Char), normalizeYoutubeUrl value = .ok result →
        stripWww (lowerChars (netlocOf result)) ∈ allowedHosts)
    ∧ normalizeYoutubeUrl (str "https://vimeo.com/123") = .error .unsupportedHost := by
  refine ⟨rfl, ?_, ?_, ?_, rfl⟩
  · intro value hsep hpre
    have hne : (stripChars value).isEmpty = false := by
      rcases h : stripChars value with _ | ⟨c, t⟩
      · rw [h] at hpre
        revert hpre
        decide
      · rfl
    have hcand : promoteCandidate (stripChars value) = str "https://" ++ stripChars value := by
      unfold promoteCandidate
      rw [if_pos]
      constructor
      · rw [hsep]; exact Bool.false_ne_true
      · exact hpre
    unfold normalizeYoutubeUrl
    simp only [hne, Bool.false_eq_true, if_false, hcand]
    split_ifs with h
    · exact Or.inl rfl
    · exact Or.inr rfl
  · intro value hne hhost
    unfold normalizeYoutubeUrl
    simp only [hne, Bool.false_eq_true, if_false]
    rw [if_neg hhost]
  · intro value result hok
    unfold normalizeYoutubeUrl at hok
    by_cases hne : (stripChars value).isEmpty
    · simp only [hne, if_true] at hok
      exact absurd hok (by simp)
    · rw [Bool.not_eq_true] at hne
      simp only [hne, Bool.false_eq_true, if_false] at hok
      by_cases h : stripWww (lowerChars (netlocOf (promoteCandidate (stripChars value)))) ∈ allowedHosts
      · rw [if_pos h] at hok
        injection hok with hok
        subst hok
        exact h
      · rw [if_neg h] at hok
        exact absurd hok (by simp)

/-- C5 witness: the scheme-prepending branch at a concrete known-host input
and the host rejection at a concrete disallowed host. -/
theorem c5_url_normalization_witness :
    (normalizeYoutubeUrl (str "youtube.com/watch?v=abc") =
        .ok (str "https://" ++ stripChars (str "youtube.com/watch?v=abc")) ∨
      normalizeYoutubeUrl (str "youtube.com/watch?v=abc") = .error .unsupportedHost)
    ∧ normalizeYoutubeUrl (str "https://evil.example/x") = .error .unsupportedHost :=
  ⟨c5_url_normalization.2.1 (str "youtube.com/watch?v=abc") (by decide) (by decide),
   c5_url_normalization.2.2.1 (str "https://evil.example/x") (by decide) (by decide)⟩

/-! ## C6: acquisition-chain failure aggregation -/

set_option maxRecDepth 4000 in
/-- C6 counterexample: with a long (150-character) download error and a long
(100-character) venv error, the successive 220-character trims cut the pip
strategy's part out of the message entirely — the raised error does not
contain all three strategy names, while the venv label still survives. -/
theorem c6_truncation_counterexample :
    containsSeq (str "pip") (updateFailureMessage (List.replicate 150 'a')
      (some (List.replicate 100 'b')) (some (str "pip install failed"))) = false
    ∧ containsSeq (str "venv") (updateFailureMessage (List.replicate 150 'a')
      (some (List.replicate 100 'b')) (some (str "pip install failed"))) = true := by
  constructor
  · decide
  · decide

/-- C6 (amended): when every strategy fails, `update_yt_dlp` raises a single
error whose message is a trimmed, semicolon-joined summary of the attempts'
failure reasons, and its length is bounded: the summary never exceeds 220
characters and the full message never exceeds 245 (well under the claimed
~280). The message contains all three strategy names only when the
accumulated reasons fit the 220-character bound — as at the concrete short
failure reasons below — but a long earlier reason truncates later strategies'
labels out of the message (see the counterexample). -/
theorem c6_failure_summary :
    (∀ (downloadError : List Char) (venvError pipError : Option (List Char)),
      (updateFailureSummary downloadError venvError pipError).length ≤ 220 ∧
      (updateFailureMessage downloadError venvError pipError).length ≤ 245)
    ∧ (containsSeq (str "download") (updateFailureMessage (str "download failed")
          (some (str "venv creation failed")) (some (str "pip install failed"))) = true
       ∧ containsSeq (str "venv: venv creation failed")
          (updateFailureMessage (str "download failed")
            (some (str "venv creation failed")) (some (str "pip install failed"))) = true
       ∧ containsSeq (str "pip: pip install failed")
          (updateFailureMessage (str "download failed")
            (some (str "venv creation failed")) (some (str "pip install failed"))) = true) := by
  constructor
  · intro downloadError venvError pipError
    have hsum : (updateFailureSummary downloadError venvError pipError).length ≤ 220 := by
      cases pipError with
      | some p => exact trimMessage_length _ 220 (by norm_num)
      | none =>
        cases venvError with
        | some v => exact trimMessage_length _ 220 (by norm_num)
        | none =>
          have h : updateFailureSummary downloadError none none =
              trimMessage downloadError 140 := rfl
          rw [h]
          have h2 := trimMessage_length downloadError 140 (by norm_num)
          omega
    refine ⟨hsum, ?_⟩
    unfold updateFailureMessage
    rw [List.length_append]
    have hpre : (str "Failed to update yt-dlp: ").length = 25 := rfl
    omega
  · refine ⟨?_, ?_, ?_⟩ <;> decide

/-! ## C10: blank-URL early rejection -/

/-- C10: for every tool state, subprocess behaviour, filesystem oracle and
app id, an input URL that is empty or consists only of whitespace makes both
`get_youtube_preview_stream` and `download_youtube_audio` fail with an error
while performing no host-facing effect at all: no subprocess is started, no
directory is created, and no track is saved. -/
theorem c10_blank_url_rejection (inv : Option YtDlpInvocation)
    (run : List String → RunOutcome)
    (resolveDownloaded : List (List Char) → Option (List Char))
    (downloadsDir : String) (appId : Int) (videoUrl : List Char)
    (hblank : stripChars videoUrl = []) :
    ((∃ e, (previewStream inv run videoUrl).1 = .error e) ∧
      (previewStream inv run videoUrl).2 = [])
    ∧ ((∃ e, (downloadAudio inv run resolveDownloaded downloadsDir appId videoUrl).1 =
          .error e) ∧
      (downloadAudio inv run resolveDownloaded downloadsDir appId videoUrl).2 = []) := by
  have hnorm : normalizeYoutubeUrl videoUrl = .error .emptyUrl := by
    unfold normalizeYoutubeUrl
    simp [hblank]
  constructor
  · cases inv with
    | none => exact ⟨⟨toolUnavailableMsg, rfl⟩, rfl⟩
    | some y =>
      unfold previewStream
      rw [hnorm]
      exact ⟨⟨urlErrorMsg .emptyUrl, rfl⟩, rfl⟩
  · by_cases hid : appId ≤ 0
    · unfold downloadAudio
      rw [if_pos hid]
      exact ⟨⟨str "Invalid app id", rfl⟩, rfl⟩
    · cases inv with
      | none =>
        unfold downloadAudio
        rw [if_neg hid]
        exact ⟨⟨toolUnavailableMsg, rfl⟩, rfl⟩
      | some y =>
        unfold downloadAudio
        rw [if_neg hid, hnorm]
        exact ⟨⟨urlErrorMsg .emptyUrl, rfl⟩, rfl⟩

/-- C10 witness: a whitespace-only URL at a concrete tool state, runner,
oracle and app id. -/
theorem c10_blank_url_rejection_witness :
    ((∃ e, (previewStream (some ⟨["yt-dlp"], none, "venv", "yt-dlp"⟩)
        (fun _ => ⟨0, str "https://stream", []⟩) (str "  ")).1 = .error e) ∧
      (previewStream (some ⟨["yt-dlp"], none, "venv", "yt-dlp"⟩)
        (fun _ => ⟨0, str "https://stream", []⟩) (str "  ")).2 = [])
    ∧ ((∃ e, (downloadAudio (some ⟨["yt-dlp"], none, "venv", "yt-dlp"⟩)
        (fun _ => ⟨0, str "https://stream", []⟩) (fun _ => some (str "f.mp3"))
        "D" 5 (str "  ")).1 = .error e) ∧
      (downloadAudio (some ⟨["yt-dlp"], none, "venv", "yt-dlp"⟩)
        (fun _ => ⟨0, str "https://stream", []⟩) (fun _ => some (str "f.mp3"))
        "D" 5 (str "  ")).2 = []) :=
  c10_blank_url_rejection (some ⟨["yt-dlp"], none, "venv", "yt-dlp"⟩)
    (fun _ => ⟨0, str "https://stream", []⟩) (fun _ => some (str "f.mp3"))
    "D" 5 (str "  ") (by decide)

/-! ## C3: config scanner -/

/-- The empty line carries no identifier token. -/
lemma appIdOfLine_nil : appIdOfLine [] = none := rfl

/-- An opening-brace line carries no identifier token. -/
lemma appIdOfLine_openBrace : appIdOfLine ['\x7b'] = none := rfl

/-- A closing-brace line carries no identifier token. -/
lemma appIdOfLine_closeBrace : appIdOfLine ['\x7d'] = none := rfl

/-- Running the scanner over no lines leaves the state unchanged. -/
lemma scanFrom_nil (s : ScanState) : scanFrom s [] = s := rfl

/-- Running the scanner over a line list processes the head first. -/
lemma scanFrom_cons (s : ScanState) (l : List Char) (ls : List (List Char)) :
    scanFrom s (l :: ls) = scanFrom (scanStep s l) ls := rfl

/-- One scanner step adds exactly the identifiers of positive value parsed
from a line seen inside the target section at depth 1. -/
lemma mem_scanStep (s : ScanState) (l : List Char) (n : Nat) :
    n ∈ (scanStep s l).appIds ↔
      n ∈ s.appIds ∨
        (s.currentSection.isSome = true ∧ s.depth = 1 ∧
          appIdOfLine (stripChars l) = some n ∧ 0 < n) := by
  unfold scanStep
  by_cases hemp : (stripChars l).isEmpty
  · rw [if_pos hemp]
    have hid : appIdOfLine (stripChars l) = none := by
      rcases h : stripChars l with _ | ⟨c, t⟩
      · rfl
      · rw [h] at hemp
        exact absurd hemp (by simp)
    simp [hid]
  · rw [if_neg hemp]
    rcases hcur : s.currentSection with _ | sec
    · dsimp only
      simp only [Option.isSome_none, Bool.false_eq_true, false_and, or_false]
      split_ifs <;> simp
    · dsimp only
      simp only [Option.isSome_some, true_and]
      by_cases hb1 : stripChars l = ['\x7b']
      · rw [if_pos hb1, hb1, appIdOfLine_openBrace]
        simp
      · rw [if_neg hb1]
        by_cases hb2 : stripChars l = ['\x7d']
        · rw [if_pos hb2, hb2, appIdOfLine_closeBrace]
          split_ifs <;> simp
        · rw [if_neg hb2]
          by_cases hd : s.depth = 1
          · rw [if_pos hd]
            rcases hid : appIdOfLine (stripChars l) with _ | m
            · simp
            · dsimp only
              by_cases hm : 0 < m
              · rw [if_pos hm]
                simp only [Finset.mem_insert, hd, true_and, Option.some.injEq]
                constructor
                · rintro (rfl | hmem)
                  · exact Or.inr ⟨rfl, hm⟩
                  · exact Or.inl hmem
                · rintro (hmem | ⟨rfl, h0⟩)
                  · exact Or.inr hmem
                  · exact Or.inl rfl
              · rw [if_neg hm]
                simp only [hd, true_and, Option.some.injEq]
                constructor
                · exact fun hmem => Or.inl hmem
                · rintro (hmem | ⟨rfl, h0⟩)
                  · exact hmem
                  · exact absurd h0 hm
          · rw [if_neg hd]
            simp [hd]

/-- Membership in the scanner's result, characterised over the whole run:
an identifier is collected iff some line is parsed as a positive identifier
while the state just before it is inside a section at depth 1. -/
lemma mem_scanFrom (lines : List (List Char)) :
    ∀ (s : ScanState) (n : Nat),
      n ∈ (scanFrom s lines).appIds ↔
        n ∈ s.appIds ∨
          ∃ i, ∃ h : i < lines.length,
            ((scanFrom s (lines.take i)).currentSection.isSome = true ∧
             (scanFrom s (lines.take i)).depth = 1 ∧
             appIdOfLine (stripChars lines[i]) = some n ∧ 0 < n) := by
  induction lines with
  | nil =>
    intro s n
    simp [scanFrom_nil]
  | cons l ls ih =>
    intro s n
    rw [scanFrom_cons, ih (scanStep s l) n, mem_scanStep]
    constructor
    · rintro ((hmem | hP) | ⟨i, hi, hQ⟩)
      · exact Or.inl hmem
      · refine Or.inr ⟨0, by simp, ?_⟩
        simpa using hP
      · refine Or.inr ⟨i + 1, by simpa using hi, ?_⟩
        simpa [List.take_succ_cons, scanFrom_cons] using hQ
    · rintro (hmem | ⟨i, hi, hQ⟩)
      · exact Or.inl (Or.inl hmem)
      · cases i with
        | zero => exact Or.inl (Or.inr (by simpa [scanFrom_nil] using hQ))
        | succ j =>
          exact Or.inr ⟨j, by simpa using hi,
            by simpa [List.take_succ_cons, scanFrom_cons] using hQ⟩

/-- The section names the scanner can hold: only the target section
`"apps"` is ever entered or pending. -/
def sectionOk (s : ScanState) : Prop :=
  (s.currentSection = none ∨ s.currentSection = some (str "apps")) ∧
  (s.pendingSection = none ∨ s.pendingSection = some (str "apps"))

/-- One scanner step preserves `sectionOk`. -/
lemma scanStep_sectionOk {s : ScanState} (hs : sectionOk s) (l : List Char) :
    sectionOk (scanStep s l) := by
  unfold scanStep
  by_cases hemp : (stripChars l).isEmpty
  · rw [if_pos hemp]
    exact hs
  · rw [if_neg hemp]
    rcases hcur : s.currentSection with _ | sec
    · dsimp only
      by_cases hg : ((sectionName (stripChars l)).elim false
          (fun nm => decide (lowerChars nm = str "apps"))) = true
      · rw [if_pos hg]
        rcases hsn : sectionName (stripChars l) with _ | nm
        · rw [hsn] at hg
          exact absurd hg (by simp)
        · rw [hsn] at hg
          have hg2 : lowerChars nm = str "apps" := of_decide_eq_true hg
          exact ⟨Or.inl rfl, Or.inr (by simp [hg2])⟩
      · rw [if_neg hg]
        split_ifs with h2
        · exact ⟨hs.2, Or.inl rfl⟩
        · exact ⟨Or.inl rfl, Or.inl rfl⟩
    · dsimp only
      have hsec : some sec = some (str "apps") := by
        rcases hs.1 with h | h
        · rw [hcur] at h; exact absurd h (by simp)
        · rw [hcur] at h; exact h
      split_ifs with h1 h2 h3 h4
      · exact ⟨Or.inr hsec, hs.2⟩
      · exact ⟨Or.inl rfl, hs.2⟩
      · exact ⟨Or.inr hsec, hs.2⟩
      · rcases hid : appIdOfLine (stripChars l) with _ | m
        · exact hs
        · dsimp only
          split_ifs
          · exact ⟨Or.inr hsec, hs.2⟩
          · exact hs
      · exact hs

/-- The whole scanner run preserves `sectionOk`. -/
lemma scanFrom_sectionOk {s : ScanState} (hs : sectionOk s)
    (lines : List (List Char)) : sectionOk (scanFrom s lines) := by
  induction lines generalizing s with
  | nil => exact hs
  | cons l ls ih => exact ih (scanStep_sectionOk hs l)

/-- The spec's example file: an `"apps"` section containing `"440"` and a
sibling `"apptickets"` section containing `"9999"`. -/
def exampleLocalConfig : List (List Char) :=
  [str "\"UserLocalConfigStore\"", str "\x7b", str "  \"apps\"", str "  \x7b",
   str "    \"440\"", str "    \x7b", str "      \"foo\"  \"bar\"", str "    \x7d",
   str "  \x7d", str "  \"apptickets\"", str "  \x7b", str "    \"9999\"",
   str "    \x7b", str "    \x7d", str "  \x7d", str "\x7d"]

/-- C3: an identifier is in the scanner's result set iff some line of the
file is parsed (at its position in the run) inside the single target section
`"apps"` at nesting depth exactly 1 and starts with a quoted 1-to-7-digit
token of positive value; in particular, on the spec's example file with a
sibling `"apptickets"` section, the result is exactly `{440}` — the `9999`
inside the sibling section is not included. -/
theorem c3_config_scanner :
    (∀ (lines : List (List Char)) (n : Nat),
      n ∈ extractAppIds lines ↔
        ∃ i, ∃ h : i < lines.length,
          (scanFrom scanInit (lines.take i)).currentSection = some (str "apps") ∧
          (scanFrom scanInit (lines.take i)).depth = 1 ∧
          appIdOfLine (stripChars lines[i]) = some n ∧ 0 < n)
    ∧ extractAppIds exampleLocalConfig = {440} := by
  constructor
  · intro lines n
    unfold extractAppIds
    rw [mem_scanFrom]
    have hinit : n ∈ scanInit.appIds ↔ False := by simp [scanInit]
    rw [hinit]
    simp only [false_or]
    constructor
    · rintro ⟨i, hi, hsome, hdep, hid, hpos⟩
      have hok := scanFrom_sectionOk (s := scanInit) ⟨Or.inl rfl, Or.inl rfl⟩ (lines.take i)
      rcases hok.1 with hnone | happ
      · rw [hnone] at hsome
        exact absurd hsome (by simp)
      · exact ⟨i, hi, happ, hdep, hid, hpos⟩
    · rintro ⟨i, hi, happ, hdep, hid, hpos⟩
      exact ⟨i, hi, by rw [happ]; rfl, hdep, hid, hpos⟩
  · decide

/-! ## C4 and C8: search output parsing -/

/-- A produced hit carries exactly the duration value that was parsed from
the line. -/
lemma processSearchLine_duration_eq (rawLine : List Char) (hit : SearchHit)
    (h : processSearchLine rawLine = some hit) :
    hit.duration = durationOfLine rawLine := by
  simp only [processSearchLine] at h
  by_cases h1 : (stripChars rawLine).isEmpty
  · rw [if_pos h1] at h
    exact absurd h (by simp)
  · rw [if_neg h1] at h
    by_cases h2 : (splitOnChar '\t' (stripChars rawLine)).length < 2
    · rw [if_pos h2] at h
      exact absurd h (by simp)
    · rw [if_neg h2] at h
      by_cases h3 : (stripChars ((splitOnChar '\t' (stripChars rawLine)).getD 0 [])).isEmpty
      · rw [if_pos h3] at h
        exact absurd h (by simp)
      · rw [if_neg h3] at h
        rcases hdur : durationOfLine rawLine with _ | d0
        · rw [hdur] at h
          dsimp only at h
          injection h with h
          rw [← h]
        · rw [hdur] at h
          dsimp only at h
          by_cases h900 : d0 > 15 * 60
          · rw [if_pos h900] at h
            exact absurd h (by simp)
          · rw [if_neg h900] at h
            injection h with h
            rw [← h]

/-- A line whose parsed duration exceeds 900 seconds is skipped. -/
lemma processSearchLine_skip_long (rawLine : List Char) (d : Int)
    (hd : durationOfLine rawLine = some d) (h900 : 900 < d) :
    processSearchLine rawLine = none := by
  simp only [processSearchLine]
  by_cases h1 : (stripChars rawLine).isEmpty
  · rw [if_pos h1]
  · rw [if_neg h1]
    by_cases h2 : (splitOnChar '\t' (stripChars rawLine)).length < 2
    · rw [if_pos h2]
    · rw [if_neg h2]
      by_cases h3 : (stripChars ((splitOnChar '\t' (stripChars rawLine)).getD 0 [])).isEmpty
      · rw [if_pos h3]
      · rw [if_neg h3]
        rw [hd]
        dsimp only
        rw [if_pos (by omega : d > 15 * 60)]

/-- C4: every returned hit has no duration or a duration of at most 900
seconds; a line parsed to a duration above 900 is absent from the results;
and a hit from a line whose duration field is absent or unparseable is
retained with its duration unset. -/
theorem c4_duration_cap :
    (∀ (stdoutLines : List (List Char)) (hit : SearchHit),
      hit ∈ searchResults stdoutLines →
        hit.duration = none ∨ ∃ d : Int, hit.duration = some d ∧ d ≤ 900)
    ∧ (∀ (rawLine : List Char) (d : Int), durationOfLine rawLine = some d →
        900 < d → processSearchLine rawLine = none)
    ∧ (∀ (rawLine : List Char) (hit : SearchHit),
        processSearchLine rawLine = some hit → durationOfLine rawLine = none →
        hit.duration = none) := by
  refine ⟨?_, ?_, ?_⟩
  · intro stdoutLines hit hmem
    rcases List.mem_filterMap.mp hmem with ⟨rawLine, hmemL, h⟩
    rcases hdur : durationOfLine rawLine with _ | d
    · exact Or.inl (by rw [processSearchLine_duration_eq rawLine hit h, hdur])
    · by_cases h900 : 900 < d
      · rw [processSearchLine_skip_long rawLine d hdur h900] at h
        exact absurd h (by simp)
      · exact Or.inr ⟨d, by rw [processSearchLine_duration_eq rawLine hit h, hdur],
          by omega⟩
  · exact processSearchLine_skip_long
  · intro rawLine hit h hdur
    rw [processSearchLine_duration_eq rawLine hit h, hdur]

/-- C4 witness: a 901-second line is dropped, a kept 800-second line carries
its duration, and an `NA` duration field is kept with the duration unset. -/
theorem c4_duration_cap_witness :
    ((⟨str "id1", str "Title", [], some 800,
        watchUrlOf (str "id1")⟩ : SearchHit).duration = none ∨
      ∃ d : Int, (⟨str "id1", str "Title", [], some 800,
        watchUrlOf (str "id1")⟩ : SearchHit).duration = some d ∧ d ≤ 900)
    ∧ processSearchLine (str "id1\tTitle\t\t901\t") = none
    ∧ (⟨str "id1", str "Title", [], none,
        watchUrlOf (str "id1")⟩ : SearchHit).duration = none :=
  ⟨c4_duration_cap.1 [str "id1\tTitle\t\t800\t"] _ (by decide),
   c4_duration_cap.2.1 (str "id1\tTitle\t\t901\t") 901 (by decide) (by norm_num),
   c4_duration_cap.2.2 (str "id1\tTitle\t\tNA\t") _ (by decide) (by decide)⟩

/-- C8 counterexample: a line with a single, non-empty tab-separated field is
skipped even though its id field is present and non-empty — the parser also
requires at least two fields. -/
theorem c8_single_field_counterexample :
    processSearchLine (str "abc123") = none
    ∧ stripChars ((splitOnChar '\t' (stripChars (str "abc123"))).getD 0 []) =
        str "abc123"
    ∧ ((str "abc123").isEmpty = false)
    ∧ durationOfLine (str "abc123") = none := by
  refine ⟨?_, ?_, ?_, ?_⟩ <;> decide

/-- C8 (amended): a line is skipped exactly when it is blank, has fewer than
two tab-separated fields, has an empty id field, or has a parsed duration
above 900 seconds; every other line produces a hit whose id is the stripped
first field, and when the url field is not an absolute http(s) URL the watch
URL is synthesized from the id. -/
theorem c8_line_production (rawLine : List Char)
    (hparts : 2 ≤ (splitOnChar '\t' (stripChars rawLine)).length)
    (hid : (stripChars ((splitOnChar '\t' (stripChars rawLine)).getD 0 [])).isEmpty = false)
    (hdur : ∀ d : Int, durationOfLine rawLine = some d → d ≤ 900) :
    ∃ hit, processSearchLine rawLine = some hit ∧
      hit.id = stripChars ((splitOnChar '\t' (stripChars rawLine)).getD 0 []) ∧
      (isAbsoluteHttpUrl (lineField rawLine 4) = false →
        hit.webpageUrl = watchUrlOf hit.id) := by
  have hl : (stripChars rawLine).isEmpty = false := by
    rcases hsl : stripChars rawLine with _ | ⟨c, t⟩
    · rw [hsl] at hparts
      exact absurd hparts (by decide)
    · rfl
  simp only [processSearchLine]
  rw [if_neg (by rw [hl]; exact Bool.false_ne_true)]
  rw [if_neg (by omega : ¬(splitOnChar '\t' (stripChars rawLine)).length < 2)]
  rw [if_neg (by rw [hid]; exact Bool.false_ne_true)]
  rcases hd : durationOfLine rawLine with _ | d
  · dsimp only
    refine ⟨_, rfl, rfl, ?_⟩
    intro hurl
    dsimp only
    rw [if_neg (by rw [hurl]; exact Bool.false_ne_true)]
  · dsimp only
    rw [if_neg (by have := hdur d hd; omega : ¬d > 15 * 60)]
    refine ⟨_, rfl, rfl, ?_⟩
    intro hurl
    dsimp only
    rw [if_neg (by rw [hurl]; exact Bool.false_ne_true)]

/-- C8 witness: a two-field line with a non-empty id and no url field
produces a hit whose watch URL is synthesized from the id. -/
theorem c8_line_production_witness :
    ∃ hit, processSearchLine (str "abc123\tSong") = some hit ∧
      hit.id = stripChars ((splitOnChar '\t' (stripChars (str "abc123\tSong"))).getD 0 []) ∧
      (isAbsoluteHttpUrl (lineField (str "abc123\tSong") 4) = false →
        hit.webpageUrl = watchUrlOf hit.id) :=
  c8_line_production (str "abc123\tSong") (by decide) (by decide)
    (fun d hd => by
      have h0 : durationOfLine (str "abc123\tSong") = none := by decide
      rw [h0] at hd
      exact absurd hd (by simp))

end ThemeDeck
